import Mathlib

/-!
Shallow embedding of the mcphost MCP tool servers (google-search, fetch,
time), written from the Go sources in this repository.  Pure fragments of
the handlers become Lean functions; external collaborators (the wall
clock, the timezone database, the JSON codec for custom fetch headers)
are passed in explicitly.  All machine integers stay in `Nat`/`Int`/`Rat`,
floats arriving from the JSON argument map are modelled as `Rat` (the
handlers only compare them and truncate them toward zero, operations on
which `Rat` agrees with binary floating point for every value relevant
here).
-/

namespace Mcphost

/-- Truncation toward zero, the semantics of Go's `int(x)` conversion on a
floating-point value: floor for nonnegative arguments, ceiling for
negative ones. -/
def ratTrunc (q : ℚ) : ℤ :=
  if 0 ≤ q then ⌊q⌋ else ⌈q⌉

/-! ## Google search server (`src/unnamed/part_000`) -/

/-- Server-held configuration of `GoogleSearchServer` relevant to the
handlers: the two credentials.  They are set at construction and never
mutated (source lines 77-91). -/
structure SearchConfig where
  apiKey : String
  searchEngineID : String
deriving DecidableEq, Repr

/-- The argument map of a `searchGoogle` invocation, restricted to
well-typed values: each field is present (`some`) or absent (`none`),
mirroring the JSON object the host sends.  Numeric arguments arrive as
floating point, modelled as `Rat`. -/
structure SearchArgs where
  query : Option String
  num : Option ℚ
  start : Option ℚ
  language : Option String
  country : Option String
  safeSearch : Option Bool
deriving DecidableEq, Repr

/-- The typed parameter struct the handler decodes into
(source lines 176-194). -/
structure SearchParams where
  query : String
  num : ℚ
  start : ℚ
  language : String
  country : String
  safeSearch : Bool
deriving DecidableEq, Repr

/-- Go's `json.Unmarshal` of the (re-marshalled) argument map into the
params struct: an absent key leaves the field at its Go zero value
(`""`, `0`, `false`). -/
def decodeSearchArgs (a : SearchArgs) : SearchParams :=
  { query := a.query.getD ""
    num := a.num.getD 0
    start := a.start.getD 0
    language := a.language.getD ""
    country := a.country.getD ""
    safeSearch := a.safeSearch.getD false }

/-- The clamp applied to `params.Num` before use (source lines 208-212):
`<= 0` becomes the default 5, `> 10` becomes the Google page limit 10,
anything else is left untouched.  The comparison happens on the
floating-point value, before any integer conversion. -/
def clampNum (num : ℚ) : ℚ :=
  if num ≤ 0 then 5 else if 10 < num then 10 else num

/-- The clamp applied to `params.Start` (source lines 214-216). -/
def clampStart (start : ℚ) : ℚ :=
  if start ≤ 0 then 1 else start

/-- The integer actually rendered into the `num` query parameter:
`int(params.Num)` applied to the clamped value (source line 224). -/
def effectiveNum (num : ℚ) : ℤ :=
  ratTrunc (clampNum num)

/-- The integer rendered into the `start` query parameter
(source line 225). -/
def effectiveStart (start : ℚ) : ℤ :=
  ratTrunc (clampStart start)

/-- The outbound search call as assembled by the handler just before the
HTTP request is created: base endpoint plus the query parameters in the
order the source `Add`s them (source lines 218-241). -/
structure SearchCall where
  baseURL : String
  values : List (String × String)
deriving DecidableEq, Repr

/-- The part of `handleGoogleSearch` that runs before any network
activity (source lines 165-241): credential gate, parameter decode,
query validation, clamping, and construction of the outbound call.
Errors are the exact `fmt.Errorf` messages of the source; an `Except.error`
means the handler returns before a `SearchCall` exists, so no network
call is attempted. -/
def searchPrepare (cfg : SearchConfig) (args : SearchArgs) :
    Except String SearchCall :=
  if cfg.apiKey = "" then .error "API key is not configured"
  else if cfg.searchEngineID = "" then .error "Search Engine ID is not configured"
  else
    let params := decodeSearchArgs args
    if params.query = "" then .error "Search query cannot be empty"
    else
      .ok
        { baseURL := "https://www.googleapis.com/customsearch/v1"
          values :=
            [("q", params.query), ("key", cfg.apiKey), ("cx", cfg.searchEngineID),
             ("num", toString (effectiveNum params.num)),
             ("start", toString (effectiveStart params.start))]
            ++ (if params.language ≠ "" then [("lr", "lang_" ++ params.language)] else [])
            ++ (if params.country ≠ "" then [("gl", params.country)] else [])
            ++ [("safe", if params.safeSearch then "active" else "off")] }

/-- The `getApiStatus` status message (source lines 143-150). -/
def apiStatusMsg (cfg : SearchConfig) : String :=
  if cfg.apiKey = "" then
    "Error: API key is not configured. Please set the API_KEY environment variable or use the -api-key flag."
  else if cfg.searchEngineID = "" then
    "Error: Search Engine ID is not configured. Please set the SEARCH_ENGINE_ID environment variable or use the -search-engine-id flag."
  else
    "Google Search API is properly configured and ready to use."

/-- `handleApiStatus` (source lines 140-162): wraps the status message in
a successful tool result and returns a nil error, on every path. -/
def handleApiStatus (cfg : SearchConfig) : Except String String :=
  .ok (apiStatusMsg cfg)

/-! ## Bounded response reading

Both HTTP handlers read the response with
`io.ReadAll(io.LimitReader(resp.Body, s.maxBodySize))`
(search source lines 263-268, fetch source lines 163-168).  A response
stream is modelled as the byte sequence the peer would deliver plus an
optional stream-level I/O error occurring after those bytes.
`io.LimitReader` yields end-of-stream once `cap` bytes have been read, so
the underlying error is only ever observed when it sits before the cap;
`io.ReadAll` treats end-of-stream as success, so reaching the cap is
never an error. -/

/-- `io.ReadAll (io.LimitReader stream cap)` over the stream model. -/
def boundedRead (cap : ℕ) (data : List ℕ) (streamErr : Option String) :
    Except String (List ℕ) :=
  if cap ≤ data.length then .ok (data.take cap)
  else
    match streamErr with
    | none => .ok data
    | some e => .error e

/-! ## Post-exchange handling of the search response -/

/-- Failure classification of the search handler after the HTTP exchange
(source lines 263-273). -/
inductive SearchFailure where
  | readFailure (msg : String)
  | upstreamError (status : ℕ) (body : List ℕ)
deriving DecidableEq, Repr

/-- The slice of `handleGoogleSearch` between `client.Do` returning a
response and the JSON decode of the body (source lines 263-273): the body
is read first, bounded by `maxBodySize`; a read error is returned as
such; then any status other than 200 (`http.StatusOK`) is turned into
the `"API error: %s (status code: %d)"` failure carrying the status and
the (truncated) body.  `Except.ok` carries the body handed on to the
JSON decoder. -/
def searchHandleResponse (cap : ℕ) (status : ℕ) (data : List ℕ)
    (streamErr : Option String) : Except SearchFailure (List ℕ) :=
  match boundedRead cap data streamErr with
  | .error e => .error (.readFailure e)
  | .ok body => if status ≠ 200 then .error (.upstreamError status body) else .ok body

/-! ## Fetch server (`src/unnamed/part_001`) -/

/-- Server-held configuration of `FetchServer` relevant to request
construction. -/
structure FetchConfig where
  userAgent : String
deriving DecidableEq, Repr

/-- The argument map of a `fetchURL` invocation, restricted to well-typed
(string) values; absent fields are `none`. -/
structure FetchArgs where
  url : Option String
  method : Option String
  body : Option String
  contentType : Option String
  headers : Option String
deriving DecidableEq, Repr

/-- The typed parameter struct the fetch handler decodes into
(source lines 83-100); absent keys decode to the Go zero value `""`. -/
structure FetchParams where
  url : String
  method : String
  body : String
  contentType : String
  headers : String
deriving DecidableEq, Repr

/-- Character-list core of Go's `strings.HasPrefix`: does the first list
start with the second? -/
def charsStart : List Char → List Char → Bool
  | _, [] => true
  | [], _ :: _ => false
  | c :: s, p :: ps => c == p && charsStart s ps

/-- Go's `strings.HasPrefix s pat`: `s` begins with the literal `pat`,
compared byte-for-byte (case-sensitively). -/
def strStarts (s pat : String) : Bool := charsStart s.data pat.data

/-- Go's `json.Unmarshal` of the fetch argument map. -/
def decodeFetchArgs (a : FetchArgs) : FetchParams :=
  { url := a.url.getD ""
    method := a.method.getD ""
    body := a.body.getD ""
    contentType := a.contentType.getD ""
    headers := a.headers.getD "" }

/-- `http.Header.Set`: replaces any existing values for the key, then
records the new one.  (Go canonicalises header-key case; the claims
settled here never rely on that, so keys are kept verbatim.) -/
def setHeader (hs : List (String × String)) (k v : String) :
    List (String × String) :=
  (hs.filter fun p => p.1 ≠ k) ++ [(k, v)]

/-- The outbound fetch request as fully assembled just before
`client.Do` (source lines 112-152). -/
structure FetchCall where
  method : String
  url : String
  body : Option String
  headers : List (String × String)
deriving DecidableEq, Repr

/-- The part of `handleFetchURL` that runs before any network activity
(source lines 83-152): decode, URL scheme validation, method defaulting,
body attachment, header assembly.  `parseHeadersJSON` stands for
`encoding/json`'s decode of the `headers` argument into a string map
(an external collaborator); `none` is a malformed encoding.  An
`Except.error` means the handler returns before a request exists, so no
network call is attempted; messages are the source's `fmt.Errorf`
strings. -/
def fetchPrepare (parseHeadersJSON : String → Option (List (String × String)))
    (cfg : FetchConfig) (args : FetchArgs) : Except String FetchCall :=
  let params := decodeFetchArgs args
  if ¬ (strStarts params.url "http://" ∨ strStarts params.url "https://") then
    .error "URL must begin with http:// or https://"
  else
    let method := if params.method = "" then "GET" else params.method
    let reqBody : Option String := if params.body ≠ "" then some params.body else none
    let hs0 : List (String × String) := setHeader [] "User-Agent" cfg.userAgent
    let hs1 :=
      if params.contentType ≠ "" then setHeader hs0 "Content-Type" params.contentType
      else if params.body ≠ "" ∧ (method = "POST" ∨ method = "PUT" ∨ method = "PATCH") then
        setHeader hs0 "Content-Type" "application/json"
      else hs0
    if params.headers ≠ "" then
      match parseHeadersJSON params.headers with
      | none => .error "invalid headers JSON"
      | some custom =>
          .ok { method := method, url := params.url, body := reqBody
                headers := custom.foldl (fun hs p => setHeader hs p.1 p.2) hs1 }
    else
      .ok { method := method, url := params.url, body := reqBody, headers := hs1 }

/-- The response structure the fetch handler serialises into its success
text (source lines 178-191). -/
structure FetchResponseDetails where
  statusCode : ℕ
  headers : List (String × String)
  body : List ℕ
  url : String
  method : String
deriving DecidableEq, Repr

/-- The slice of `handleFetchURL` after `client.Do` returns a response
(source lines 163-213): the body is read bounded by `maxBodySize`; a
read error is returned as such; otherwise the handler builds the
response structure — embedding the status code whatever its value, with
no status check anywhere — and returns it as a successful tool result.
(The subsequent `json.MarshalIndent` of this structure cannot fail, so
the success value is modelled as the structure itself.) -/
def fetchHandleResponse (cap : ℕ) (status : ℕ)
    (respHeaders : List (String × String)) (data : List ℕ)
    (streamErr : Option String) (url method : String) :
    Except String FetchResponseDetails :=
  match boundedRead cap data streamErr with
  | .error e => .error ("failed to read response body: " ++ e)
  | .ok body =>
      .ok { statusCode := status, headers := respHeaders, body := body
            url := url, method := method }

/-! ## Time server (`src/cmd/mcp/servers/timeserver/main.go`)

Go's `time.Time` is modelled by the absolute instant it denotes (seconds
since `0001-01-01T00:00:00 UTC`, matching the epoch of `time.Time`'s zero
value and its `IsZero` test) together with the offset of the location
attached to it.  `t.In(loc)` keeps the instant and swaps the offset.
Calendar arithmetic uses the standard civil-from-days/days-from-civil
algorithms on the proleptic Gregorian calendar, the calendar `time` uses.
Fractional seconds are left out of the model: the claims settled here
only involve whole-second RFC3339 stamps. -/

/-- Leap year in the proleptic Gregorian calendar. -/
def isLeap (y : ℤ) : Bool :=
  (y % 4 == 0 && y % 100 != 0) || y % 400 == 0

/-- Length of a month. -/
def daysInMonth (y m : ℤ) : ℤ :=
  if m = 2 then (if isLeap y then 29 else 28)
  else if m = 4 ∨ m = 6 ∨ m = 9 ∨ m = 11 then 30
  else 31

/-- Days from 1970-01-01 to civil date `y-m-d` (years shifted by 400 so
every intermediate division has nonnegative operands). -/
def daysFromCivil (y m d : ℤ) : ℤ :=
  let yy := if m ≤ 2 then y + 399 else y + 400
  let era := yy / 400
  let yoe := yy % 400
  let mp := (m + 9) % 12
  let doy := (153 * mp + 2) / 5 + d - 1
  let doe := yoe * 365 + yoe / 4 - yoe / 100 + doy
  era * 146097 + doe - 719468 - 146097

/-- Civil date `(y, m, d)` of the day `z` days after 1970-01-01 (shifted
by 400 years so every intermediate division has nonnegative operands). -/
def civilFromDays (z : ℤ) : ℤ × ℤ × ℤ :=
  let zz := z + 719468 + 146097
  let era := zz / 146097
  let doe := zz % 146097
  let yoe := (doe - doe / 1460 + doe / 36524 - doe / 146096) / 365
  let y := yoe + era * 400
  let doy := doe - (365 * yoe + yoe / 4 - yoe / 100)
  let mp := (5 * doy + 2) / 153
  let d := doy - (153 * mp + 2) / 5 + 1
  let m := if mp < 10 then mp + 3 else mp - 9
  ((if m ≤ 2 then y + 1 else y) - 400, m, d)

/-- Days from 0001-01-01 to 1970-01-01. -/
def unixEpochDays : ℤ := 719162

/-- Model of `time.Time`: the absolute instant in seconds since
`0001-01-01T00:00:00 UTC` plus the attached location's offset (seconds
east of UTC). -/
structure GoTime where
  abs : ℤ
  offset : ℤ
deriving DecidableEq, Repr

/-- The zero value `time.Time{}`: `0001-01-01T00:00:00 UTC`, the instant
`IsZero` tests for. -/
def timeZero : GoTime := ⟨0, 0⟩

/-- Absolute instant of civil fields read in a zone of offset `off`. -/
def absOfCivil (y m d h mi s off : ℤ) : ℤ :=
  (daysFromCivil y m d + unixEpochDays) * 86400 + 3600 * h + 60 * mi + s - off

/-- Value of a decimal digit character. -/
def digitVal (c : Char) : Option ℤ :=
  if c.isDigit then some ((c.toNat : ℤ) - 48) else none

/-- Two decimal digit characters as a number. -/
def num2 (a b : Char) : Option ℤ := do
  let x ← digitVal a
  let y ← digitVal b
  pure (10 * x + y)

/-- The zone part of an RFC3339 stamp: `Z` or `±hh:mm`, as an offset in
seconds. -/
def parseZoneOffset : List Char → Option ℤ
  | ['Z'] => some 0
  | [sgn, o1, o2, ':', o3, o4] => do
      let sign ← if sgn = '+' then some (1 : ℤ)
                 else if sgn = '-' then some (-1) else none
      let oh ← num2 o1 o2
      let om ← num2 o3 o4
      if oh ≤ 23 ∧ om ≤ 59 then pure (sign * (3600 * oh + 60 * om)) else none
  | _ => none

/-- `time.Parse(time.RFC3339, s)` restricted to whole seconds: the exact
shape `YYYY-MM-DDThh:mm:ss` followed by `Z` or `±hh:mm`, with every
field range-checked (day against the month's length) as Go's parser
does.  The resulting `time.Time` carries the stamp's own offset. -/
def parseRFC3339 (s : String) : Option GoTime :=
  match s.data with
  | y1 :: y2 :: y3 :: y4 :: '-' :: m1 :: m2 :: '-' :: d1 :: d2 :: 'T' ::
    h1 :: h2 :: ':' :: mi1 :: mi2 :: ':' :: s1 :: s2 :: rest => do
      let yh ← num2 y1 y2
      let yl ← num2 y3 y4
      let y := 100 * yh + yl
      let mo ← num2 m1 m2
      let d ← num2 d1 d2
      let h ← num2 h1 h2
      let mi ← num2 mi1 mi2
      let sec ← num2 s1 s2
      let off ← parseZoneOffset rest
      if 1 ≤ mo ∧ mo ≤ 12 ∧ 1 ≤ d ∧ d ≤ daysInMonth y mo ∧
         h ≤ 23 ∧ mi ≤ 59 ∧ sec ≤ 59 then
        pure ⟨absOfCivil y mo d h mi sec off, off⟩
      else none
  | _ => none

/-- Left-pads to two digits. -/
def pad2 (n : ℤ) : String :=
  (if n < 10 then "0" else "") ++ toString n

/-- Left-pads to four digits. -/
def pad4 (n : ℤ) : String :=
  (if n < 10 then "000" else if n < 100 then "00" else if n < 1000 then "0" else "")
    ++ toString n

/-- `t.Format(time.RFC3339)`: the civil representation of the instant in
the attached zone, `Z` for a zero offset and `±hh:mm` otherwise. -/
def formatRFC3339 (t : GoTime) : String :=
  let localSec := t.abs + t.offset
  let sod := localSec.emod 86400
  let days := (localSec - sod) / 86400
  let c := civilFromDays (days - unixEpochDays)
  let zone :=
    if t.offset = 0 then "Z"
    else
      let a := if t.offset < 0 then -t.offset else t.offset
      (if t.offset < 0 then "-" else "+") ++ pad2 (a / 3600) ++ ":" ++ pad2 ((a % 3600) / 60)
  pad4 c.1 ++ "-" ++ pad2 c.2.1 ++ "-" ++ pad2 c.2.2 ++ "T" ++
    pad2 (sod / 3600) ++ ":" ++ pad2 ((sod % 3600) / 60) ++ ":" ++ pad2 (sod % 60) ++ zone

/-- Model of Go's `time.LoadLocation` over a representative fragment of
the IANA database restricted to fixed-offset zones (neither has used
daylight saving in the era relevant here); `""` and `"UTC"` resolve to
UTC exactly as its documentation states.  Every other name is
unrecognized and errors. -/
def loadLocation (name : String) : Option ℤ :=
  if name = "" ∨ name = "UTC" then some 0
  else if name = "Asia/Seoul" then some 32400
  else if name = "Asia/Tokyo" then some 32400
  else none

/-- Server-held configuration of `TimeServer`. -/
structure TimeConfig where
  defaultTimezone : String
deriving DecidableEq, Repr

/-- Failure classification of `convertTimeToTimezone`
(source lines 67-84). -/
inductive TimeError where
  | invalidTimezone
  | invalidTimeFormat
deriving DecidableEq, Repr

/-- `convertTimeToTimezone` (source lines 59-91): resolve the timezone
(explicit name, else the server default), load it, then either take the
wall clock `now` (passed in explicitly here) or strictly parse the given
RFC3339 stamp, and attach the resolved zone via `.In(loc)`.  The Go
function returns the triple `(timezone string, time, error)`; both error
paths return `("", time.Time{}, err)` verbatim. -/
def convertTimeToTimezone (cfg : TimeConfig) (now : GoTime)
    (timeStr requestedTimezone : String) :
    String × GoTime × Option TimeError :=
  let timezone := if requestedTimezone = "" then cfg.defaultTimezone else requestedTimezone
  match loadLocation timezone with
  | none => ("", timeZero, some .invalidTimezone)
  | some off =>
    if timeStr = "" then (timezone, ⟨now.abs, off⟩, none)
    else
      match parseRFC3339 timeStr with
      | none => ("", timeZero, some .invalidTimeFormat)
      | some t => (timezone, ⟨t.abs, off⟩, none)

/-! ## Helper lemmas -/

/-- Unfolding of `searchPrepare` on the success path: with both
credentials present and a non-empty query the handler reaches the call
construction and produces exactly the query-parameter list of the
source. -/
theorem searchPrepare_ok (cfg : SearchConfig) (args : SearchArgs)
    (hk : cfg.apiKey ≠ "") (he : cfg.searchEngineID ≠ "")
    (hq : (decodeSearchArgs args).query ≠ "") :
    searchPrepare cfg args = .ok
      { baseURL := "https://www.googleapis.com/customsearch/v1"
        values :=
          [("q", (decodeSearchArgs args).query), ("key", cfg.apiKey),
           ("cx", cfg.searchEngineID),
           ("num", toString (effectiveNum (decodeSearchArgs args).num)),
           ("start", toString (effectiveStart (decodeSearchArgs args).start))]
          ++ (if (decodeSearchArgs args).language ≠ "" then
                [("lr", "lang_" ++ (decodeSearchArgs args).language)] else [])
          ++ (if (decodeSearchArgs args).country ≠ "" then
                [("gl", (decodeSearchArgs args).country)] else [])
          ++ [("safe", if (decodeSearchArgs args).safeSearch then "active" else "off")] } := by
  simp only [searchPrepare]
  rw [if_neg hk, if_neg he, if_neg hq]

/-- When the stream has no error, or the cap is reached before any error
could be seen, the bounded read succeeds with the first `cap` bytes. -/
theorem boundedRead_ok_of_complete (cap : ℕ) (data : List ℕ)
    (streamErr : Option String) (h : streamErr = none ∨ cap ≤ data.length) :
    boundedRead cap data streamErr = .ok (data.take cap) := by
  unfold boundedRead
  by_cases hc : cap ≤ data.length
  · rw [if_pos hc]
  · rw [if_neg hc]
    rcases h with h | h
    · subst h
      rw [List.take_of_length_le (by omega)]
    · omega

/-! ## Claims -/

/-- C1, counterexample.  The claim says the effective `num` query
parameter always lies in the inclusive range `[1,10]`.  At the requested
value `0.5` the source clamps nothing (`0.5 <= 0` and `0.5 > 10` are both
false, lines 208-212) and then `int(params.Num)` truncates to `0`
(line 224), so the call carries `num=0`, outside `[1,10]`. -/
theorem c1_counterexample :
    (searchPrepare ⟨"k", "cx"⟩
        ⟨some "cats", some (1/2), none, none, none, some true⟩).map SearchCall.values
      = .ok [("q", "cats"), ("key", "k"), ("cx", "cx"), ("num", "0"), ("start", "1"),
             ("safe", "active")]
    ∧ ¬ (1 ≤ (0 : ℤ) ∧ (0 : ℤ) ≤ 10) := by
  have h0 : effectiveNum (1/2) = 0 := by
    unfold effectiveNum clampNum
    rw [if_neg (by norm_num), if_neg (by norm_num)]
    unfold ratTrunc
    rw [if_pos (by norm_num)]
    exact Int.floor_eq_zero_iff.mpr (by constructor <;> norm_num)
  refine ⟨?_, by decide⟩
  rw [searchPrepare_ok _ _ (by decide) (by decide) (by decide)]
  simp only [decodeSearchArgs, Option.getD, h0]
  rfl

/-- C1, amended: the clamp `<=0 -> 5`, `>10 -> 10` is applied to the
floating-point value first and truncation toward zero happens after it,
so requested values in the open interval `(0,1)` are sent upstream as
`num=0`, outside `[1,10]`; for all other values the claim's description
holds (`<=0 -> 5`, `>10 -> 10`, values in `[1,10]` pass through up to
truncation and land in `[1,10]`), and the value sent as the `num` query
parameter is exactly the decimal rendering of this effective count. -/
theorem c1_num_clamp_amended (q : ℚ) (cfg : SearchConfig) (args : SearchArgs) :
    (q ≤ 0 → effectiveNum q = 5) ∧
    (10 < q → effectiveNum q = 10) ∧
    (1 ≤ q → q ≤ 10 → effectiveNum q = ratTrunc q ∧
      1 ≤ effectiveNum q ∧ effectiveNum q ≤ 10) ∧
    (0 < q → q < 1 → effectiveNum q = 0) ∧
    (cfg.apiKey ≠ "" → cfg.searchEngineID ≠ "" → (decodeSearchArgs args).query ≠ "" →
      ∃ c, searchPrepare cfg args = .ok c ∧
        ("num", toString (effectiveNum (decodeSearchArgs args).num)) ∈ c.values) := by
  refine ⟨?_, ?_, ?_, ?_, ?_⟩
  · intro h
    unfold effectiveNum clampNum
    rw [if_pos h]
    unfold ratTrunc
    rw [if_pos (by norm_num)]
    simp
  · intro h
    unfold effectiveNum clampNum
    rw [if_neg (by linarith), if_pos h]
    unfold ratTrunc
    rw [if_pos (by norm_num)]
    simp
  · intro h1 h10
    have heq : effectiveNum q = ratTrunc q := by
      unfold effectiveNum clampNum
      rw [if_neg (by linarith), if_neg (by linarith)]
    have ht : ratTrunc q = ⌊q⌋ := by
      unfold ratTrunc
      rw [if_pos (by linarith)]
    refine ⟨heq, ?_, ?_⟩
    · rw [heq, ht]
      exact Int.le_floor.mpr (by exact_mod_cast h1)
    · rw [heq, ht]
      have hf : (⌊q⌋ : ℚ) ≤ 10 := le_trans (Int.floor_le q) h10
      exact_mod_cast hf
  · intro h0 h1
    unfold effectiveNum clampNum
    rw [if_neg (by linarith), if_neg (by linarith)]
    unfold ratTrunc
    rw [if_pos (by linarith)]
    exact Int.floor_eq_zero_iff.mpr (by constructor <;> linarith)
  · intro hk he hq
    refine ⟨_, searchPrepare_ok cfg args hk he hq, ?_⟩
    simp

/-- C1, witness for the amended theorem: at the in-range request `3` the
effective count is `trunc 3 = 3`, inside `[1,10]`, and a fully concrete
invocation carries `("num", "3")` among its query parameters. -/
theorem c1_num_clamp_amended_witness :
    (effectiveNum 3 = ratTrunc 3 ∧ 1 ≤ effectiveNum 3 ∧ effectiveNum 3 ≤ 10) ∧
    (∃ c, searchPrepare ⟨"k", "cx"⟩ ⟨some "cats", some 3, none, none, none, some true⟩
        = .ok c ∧
      ("num", toString (effectiveNum
        (decodeSearchArgs ⟨some "cats", some 3, none, none, none, some true⟩).num))
        ∈ c.values) :=
  ⟨(c1_num_clamp_amended 3 ⟨"k", "cx"⟩
      ⟨some "cats", some 3, none, none, none, some true⟩).2.2.1 (by decide) (by decide),
   (c1_num_clamp_amended 3 ⟨"k", "cx"⟩
      ⟨some "cats", some 3, none, none, none, some true⟩).2.2.2.2
      (by decide) (by decide) (by decide)⟩

/-- C2, counterexample.  The claim says a completed exchange with a
non-2xx status is surfaced as an `UpstreamError`, never as a success
result.  The fetch handler (`src/unnamed/part_001` lines 156-213) has no
status check at all: a completed `404` exchange is returned as a
successful tool result that merely embeds the status code. -/
theorem c2_counterexample :
    fetchHandleResponse 100 404 [] [104, 105] none "http://example.com" "GET"
      = .ok { statusCode := 404, headers := [], body := [104, 105],
              url := "http://example.com", method := "GET" } := by
  rfl

/-- C2, amended: the described behaviour is the search handler's.  For
every exchange whose status is not 200 (in particular every non-2xx
status) the search handler never returns success; and whenever the body
is readable up to the cap (no stream error, or the cap reached first) it
reads the body bounded by the cap and surfaces the `upstreamError`
carrying the status code and the truncated body.  The fetch handler
instead surfaces every completed exchange whose body is readable up to
the cap — non-2xx included — as a success result embedding the status
code. -/
theorem c2_upstream_amended (cap status : ℕ) (data : List ℕ)
    (streamErr : Option String) (respHeaders : List (String × String))
    (url method : String) :
    (status ≠ 200 →
      (∀ b, searchHandleResponse cap status data streamErr ≠ .ok b) ∧
      (streamErr = none ∨ cap ≤ data.length →
        searchHandleResponse cap status data streamErr
          = .error (.upstreamError status (data.take cap)))) ∧
    (streamErr = none ∨ cap ≤ data.length →
      fetchHandleResponse cap status respHeaders data streamErr url method
        = .ok { statusCode := status, headers := respHeaders, body := data.take cap,
                url := url, method := method }) := by
  refine ⟨fun hs => ⟨?_, ?_⟩, ?_⟩
  · intro b
    unfold searchHandleResponse
    cases hbr : boundedRead cap data streamErr with
    | error e => simp
    | ok body => simp [hs]
  · intro h
    unfold searchHandleResponse
    rw [boundedRead_ok_of_complete cap data streamErr h]
    simp [hs]
  · intro h
    unfold fetchHandleResponse
    rw [boundedRead_ok_of_complete cap data streamErr h]

/-- C2, witness for the amended theorem: a `404` exchange with a
three-byte body under a two-byte cap is an upstream error carrying `404`
and the truncated body for the search handler, and a success embedding
`404` for the fetch handler. -/
theorem c2_upstream_amended_witness :
    searchHandleResponse 2 404 [1, 2, 3] none
      = .error (.upstreamError 404 [1, 2]) ∧
    fetchHandleResponse 2 404 [] [1, 2, 3] none "http://e" "GET"
      = .ok { statusCode := 404, headers := [], body := [1, 2],
              url := "http://e", method := "GET" } :=
  ⟨((c2_upstream_amended 2 404 [1, 2, 3] none [] "http://e" "GET").1
      (by decide)).2 (.inr (by decide)),
   (c2_upstream_amended 2 404 [1, 2, 3] none [] "http://e" "GET").2
      (.inr (by decide))⟩

/-- C3: the tool registration declares `safeSearch` with
`mcp.DefaultBool(true)` (source line 123) and the spec says safe-search
defaults to true, so an invocation without `safeSearch` should carry
`safe=active`.  The handler instead decodes the absent key to Go's zero
value `false` (lines 176-194) and therefore emits `safe=off`
(lines 235-239) — the code contradicts its own declared default.  This
theorem evaluates the code at the failing input (no `safeSearch`
argument) and at the explicit `false`, both yielding `safe=off`. -/
theorem c3_safe_search_default_bug :
    (searchPrepare ⟨"k", "cx"⟩ ⟨some "cats", none, none, none, none, none⟩).map
        SearchCall.values
      = .ok [("q", "cats"), ("key", "k"), ("cx", "cx"), ("num", "5"), ("start", "1"),
             ("safe", "off")]
    ∧ (searchPrepare ⟨"k", "cx"⟩ ⟨some "cats", none, none, none, none, some false⟩).map
        SearchCall.values
      = .ok [("q", "cats"), ("key", "k"), ("cx", "cx"), ("num", "5"), ("start", "1"),
             ("safe", "off")]
    ∧ ("safe", "off") ≠ ("safe", "active") := by
  exact ⟨rfl, rfl, by decide⟩

/-- C4, counterexample.  The claim says every search invocation with an
empty query yields the message "Search query cannot be empty".  Against a
server whose API key is empty, the credential gate (source lines 169-174)
fires first and the empty-query invocation yields the configuration
message instead. -/
theorem c4_counterexample :
    searchPrepare ⟨"", "cx"⟩ ⟨some "", none, none, none, none, none⟩
      = .error "API key is not configured"
    ∧ ("API key is not configured" : String) ≠ "Search query cannot be empty" := by
  exact ⟨rfl, by decide⟩

/-- C4, amended: against a server with both credentials non-empty, every
search invocation whose decoded query is the empty string fails with
exactly "Search query cannot be empty" — an error before any outbound
call is constructed — and the emptiness check is verbatim (no trimming):
any non-empty query, whitespace included, passes it and the handler
proceeds to build the call. -/
theorem c4_empty_query_amended (cfg : SearchConfig) (args : SearchArgs)
    (hk : cfg.apiKey ≠ "") (he : cfg.searchEngineID ≠ "") :
    ((decodeSearchArgs args).query = "" →
      searchPrepare cfg args = .error "Search query cannot be empty") ∧
    ((decodeSearchArgs args).query ≠ "" → ∃ c, searchPrepare cfg args = .ok c) := by
  constructor
  · intro hq
    simp only [searchPrepare]
    rw [if_neg hk, if_neg he, if_pos hq]
  · intro hq
    exact ⟨_, searchPrepare_ok cfg args hk he hq⟩

/-- C4, witness for the amended theorem: on a configured server the empty
query yields exactly the empty-query message, and the whitespace query
`" "` is not rejected by the emptiness check. -/
theorem c4_empty_query_amended_witness :
    searchPrepare ⟨"k", "cx"⟩ ⟨some "", none, none, none, none, none⟩
      = .error "Search query cannot be empty"
    ∧ ∃ c, searchPrepare ⟨"k", "cx"⟩ ⟨some " ", none, none, none, none, none⟩ = .ok c :=
  ⟨(c4_empty_query_amended ⟨"k", "cx"⟩ ⟨some "", none, none, none, none, none⟩
      (by decide) (by decide)).1 (by decide),
   (c4_empty_query_amended ⟨"k", "cx"⟩ ⟨some " ", none, none, none, none, none⟩
      (by decide) (by decide)).2 (by decide)⟩

/-- C5, counterexample.  The claim says the empty timezone string and the
zero-value instant are never produced independently of each other.  But
converting the valid stamp `0001-01-01T00:00:00Z` — which denotes exactly
the zero value of `time.Time` — to `UTC` succeeds, returning the
zero-value instant together with a non-empty timezone string and no
error: the zero-value instant occurs without the empty string and
without a failure. -/
theorem c5_counterexample :
    convertTimeToTimezone ⟨"Asia/Seoul"⟩ ⟨1000, 0⟩ "0001-01-01T00:00:00Z" "UTC"
      = ("UTC", timeZero, none)
    ∧ ("UTC" : String) ≠ "" := by
  exact ⟨rfl, by decide⟩

/-- C5, amended: an unrecognized resolved timezone identifier always
fails with `invalidTimezone` and returns the empty timezone string
together with the zero-value instant, and every failure of the
conversion (whatever its kind) carries the empty string and the
zero-value instant together; but a successful conversion can also return
the zero-value instant (when the input stamp itself denotes
`0001-01-01T00:00:00Z`), so the pair is not exclusive to failures. -/
theorem c5_invalid_timezone_amended (cfg : TimeConfig) (now : GoTime)
    (timeStr requested : String) :
    (loadLocation (if requested = "" then cfg.defaultTimezone else requested) = none →
      convertTimeToTimezone cfg now timeStr requested
        = ("", timeZero, some .invalidTimezone)) ∧
    (∀ tz t e, convertTimeToTimezone cfg now timeStr requested = (tz, t, some e) →
      tz = "" ∧ t = timeZero) := by
  constructor
  · intro h
    simp only [convertTimeToTimezone]
    rw [h]
  · intro tz t e hEq
    simp only [convertTimeToTimezone] at hEq
    split at hEq
    · simp only [Prod.mk.injEq] at hEq
      exact ⟨hEq.1.symm, hEq.2.1.symm⟩
    · split at hEq
      · simp only [Prod.mk.injEq] at hEq
        exact absurd hEq.2.2 (by simp)
      · split at hEq
        · simp only [Prod.mk.injEq] at hEq
          exact ⟨hEq.1.symm, hEq.2.1.symm⟩
        · simp only [Prod.mk.injEq] at hEq
          exact absurd hEq.2.2 (by simp)

/-- C5, witness for the amended theorem: the unrecognized name
`Nope/Zone` fails with `invalidTimezone`, the empty timezone string and
the zero-value instant. -/
theorem c5_invalid_timezone_amended_witness :
    convertTimeToTimezone ⟨"UTC"⟩ ⟨5, 0⟩ "" "Nope/Zone"
      = ("", timeZero, some .invalidTimezone) :=
  (c5_invalid_timezone_amended ⟨"UTC"⟩ ⟨5, 0⟩ "" "Nope/Zone").1 (by rfl)

/-- C6: `getApiStatus` never fails — it always returns a success result —
and its text is exactly one of three fixed status strings: the API-key
message whenever the API key is empty (including when both credentials
are empty), the search-engine-id message when only the search-engine id
is empty, and the properly-configured message when both are present; the
three strings are pairwise distinct. -/
theorem c6_api_status (cfg : SearchConfig) :
    handleApiStatus cfg = .ok (apiStatusMsg cfg) ∧
    (cfg.apiKey = "" → apiStatusMsg cfg
      = "Error: API key is not configured. Please set the API_KEY environment variable or use the -api-key flag.") ∧
    (cfg.apiKey ≠ "" → cfg.searchEngineID = "" → apiStatusMsg cfg
      = "Error: Search Engine ID is not configured. Please set the SEARCH_ENGINE_ID environment variable or use the -search-engine-id flag.") ∧
    (cfg.apiKey ≠ "" → cfg.searchEngineID ≠ "" → apiStatusMsg cfg
      = "Google Search API is properly configured and ready to use.") ∧
    (apiStatusMsg cfg
        = "Error: API key is not configured. Please set the API_KEY environment variable or use the -api-key flag."
      ∨ apiStatusMsg cfg
        = "Error: Search Engine ID is not configured. Please set the SEARCH_ENGINE_ID environment variable or use the -search-engine-id flag."
      ∨ apiStatusMsg cfg
        = "Google Search API is properly configured and ready to use.") ∧
    (("Error: API key is not configured. Please set the API_KEY environment variable or use the -api-key flag." : String)
        ≠ "Error: Search Engine ID is not configured. Please set the SEARCH_ENGINE_ID environment variable or use the -search-engine-id flag."
      ∧ ("Error: API key is not configured. Please set the API_KEY environment variable or use the -api-key flag." : String)
        ≠ "Google Search API is properly configured and ready to use."
      ∧ ("Error: Search Engine ID is not configured. Please set the SEARCH_ENGINE_ID environment variable or use the -search-engine-id flag." : String)
        ≠ "Google Search API is properly configured and ready to use.") := by
  refine ⟨rfl, ?_, ?_, ?_, ?_, by decide⟩
  · intro h
    unfold apiStatusMsg
    rw [if_pos h]
  · intro h1 h2
    unfold apiStatusMsg
    rw [if_neg h1, if_pos h2]
  · intro h1 h2
    unfold apiStatusMsg
    rw [if_neg h1, if_neg h2]
  · unfold apiStatusMsg
    by_cases h1 : cfg.apiKey = ""
    · rw [if_pos h1]
      exact Or.inl rfl
    · rw [if_neg h1]
      by_cases h2 : cfg.searchEngineID = ""
      · rw [if_pos h2]
        exact Or.inr (Or.inl rfl)
      · rw [if_neg h2]
        exact Or.inr (Or.inr rfl)

/-- C6, witness: the three configurations — both credentials empty, only
the search-engine id empty, both present — produce the API-key message,
the search-engine-id message and the properly-configured message
respectively. -/
theorem c6_api_status_witness :
    apiStatusMsg ⟨"", ""⟩
      = "Error: API key is not configured. Please set the API_KEY environment variable or use the -api-key flag." ∧
    apiStatusMsg ⟨"k", ""⟩
      = "Error: Search Engine ID is not configured. Please set the SEARCH_ENGINE_ID environment variable or use the -search-engine-id flag." ∧
    apiStatusMsg ⟨"k", "cx"⟩
      = "Google Search API is properly configured and ready to use." :=
  ⟨(c6_api_status ⟨"", ""⟩).2.1 rfl,
   (c6_api_status ⟨"k", ""⟩).2.2.1 (by decide) rfl,
   (c6_api_status ⟨"k", "cx"⟩).2.2.2.1 (by decide) (by decide)⟩

/-- C7: the bounded read returns at most `cap` bytes whatever the stream
offers; a body at least as long as the cap is truncated to exactly the
cap with no error, whatever error the stream would produce later; and a
failure happens only when the stream itself errors strictly before the
cap is reached — never from hitting the cap. -/
theorem c7_bounded_read (cap : ℕ) (data : List ℕ) (streamErr : Option String) :
    (∀ l, boundedRead cap data streamErr = .ok l → l.length ≤ cap) ∧
    (cap ≤ data.length →
      boundedRead cap data streamErr = .ok (data.take cap) ∧
        (data.take cap).length = cap) ∧
    (∀ e, boundedRead cap data streamErr = .error e →
      streamErr = some e ∧ data.length < cap) := by
  refine ⟨?_, ?_, ?_⟩
  · intro l hl
    unfold boundedRead at hl
    by_cases hc : cap ≤ data.length
    · rw [if_pos hc] at hl
      injection hl with hl
      subst hl
      simp [List.length_take]
    · rw [if_neg hc] at hl
      cases streamErr with
      | none =>
          injection hl with hl
          subst hl
          omega
      | some e => exact absurd hl (by simp)
  · intro hc
    refine ⟨?_, by simp [List.length_take]; omega⟩
    unfold boundedRead
    rw [if_pos hc]
  · intro e he
    unfold boundedRead at he
    by_cases hc : cap ≤ data.length
    · rw [if_pos hc] at he
      exact absurd he (by simp)
    · rw [if_neg hc] at he
      cases streamErr with
      | none => exact absurd he (by simp)
      | some e0 =>
          injection he with he
          subst he
          exact ⟨rfl, by omega⟩

/-- C7, witness: a three-byte body under a two-byte cap (with a pending
stream error that is never reached) is truncated to exactly two bytes
and succeeds. -/
theorem c7_bounded_read_witness :
    boundedRead 2 [1, 2, 3] (some "reset") = .ok ([1, 2, 3].take 2) ∧
    ([1, 2, 3].take 2).length = 2 :=
  (c7_bounded_read 2 [1, 2, 3] (some "reset")).2.1 (by decide)

/-- C8: a fetch invocation whose decoded URL begins with neither the
literal `http://` nor the literal `https://` (compared case-sensitively)
fails with exactly "URL must begin with http:// or https://", whatever
the header decoder, the server configuration and the other arguments
are — the handler returns before an outbound request exists, so no
network call is attempted. -/
theorem c8_fetch_url_scheme (parseHeadersJSON : String → Option (List (String × String)))
    (cfg : FetchConfig) (args : FetchArgs)
    (h1 : strStarts (decodeFetchArgs args).url "http://" = false)
    (h2 : strStarts (decodeFetchArgs args).url "https://" = false) :
    fetchPrepare parseHeadersJSON cfg args
      = .error "URL must begin with http:// or https://" := by
  simp only [fetchPrepare]
  rw [if_pos]
  simp [h1, h2]

/-- C8, witness: the URL `ftp://x` (and, case-sensitivity, `HTTP://x`)
is rejected with the exact message. -/
theorem c8_fetch_url_scheme_witness :
    strStarts "ftp://x" "http://" = false ∧
    fetchPrepare (fun _ => none) ⟨"ua"⟩ ⟨some "ftp://x", none, none, none, none⟩
      = .error "URL must begin with http:// or https://" ∧
    fetchPrepare (fun _ => none) ⟨"ua"⟩ ⟨some "HTTP://x", none, none, none, none⟩
      = .error "URL must begin with http:// or https://" :=
  ⟨rfl,
   c8_fetch_url_scheme (fun _ => none) ⟨"ua"⟩ ⟨some "ftp://x", none, none, none, none⟩
     rfl rfl,
   c8_fetch_url_scheme (fun _ => none) ⟨"ua"⟩ ⟨some "HTTP://x", none, none, none, none⟩
     rfl rfl⟩

/-- C9: whenever the resolved timezone loads with offset `off` and the
source stamp parses to the instant `t`, the conversion succeeds and
returns exactly `t`'s absolute instant with only the attached offset
changed to `off` — the denoted instant is never altered.  Concretely,
converting `2025-04-06T14:30:00Z` to `UTC` succeeds and renders back to
the very same RFC3339 string: zero offset, identical wall-clock
fields. -/
theorem c9_time_conversion (cfg : TimeConfig) (now t : GoTime) (ts name : String)
    (off : ℤ)
    (hl : loadLocation (if name = "" then cfg.defaultTimezone else name) = some off)
    (hp : parseRFC3339 ts = some t) :
    convertTimeToTimezone cfg now ts name
      = ((if name = "" then cfg.defaultTimezone else name), ⟨t.abs, off⟩, none) ∧
    convertTimeToTimezone ⟨"Asia/Seoul"⟩ now "2025-04-06T14:30:00Z" "UTC"
      = ("UTC", ⟨63879546600, 0⟩, none) ∧
    parseRFC3339 "2025-04-06T14:30:00Z" = some ⟨63879546600, 0⟩ ∧
    formatRFC3339 ⟨63879546600, 0⟩ = "2025-04-06T14:30:00Z" ∧
    formatRFC3339 ⟨63879546600, 32400⟩ = "2025-04-06T23:30:00+09:00" := by
  have hts : ts ≠ "" := by
    intro h
    rw [h] at hp
    rw [show parseRFC3339 "" = none from rfl] at hp
    exact Option.noConfusion hp
  refine ⟨?_, rfl, rfl, rfl, rfl⟩
  simp only [convertTimeToTimezone]
  rw [hl]
  simp only [if_neg hts, hp]

/-- C9, witness: the fixed instant of the claim, converted to `UTC`. -/
theorem c9_time_conversion_witness :
    convertTimeToTimezone ⟨"Asia/Seoul"⟩ ⟨0, 0⟩ "2025-04-06T14:30:00Z" "UTC"
      = ("UTC", ⟨(63879546600 : ℤ), (0 : ℤ)⟩, none) ∧
    formatRFC3339 ⟨63879546600, 0⟩ = "2025-04-06T14:30:00Z" :=
  ⟨((c9_time_conversion ⟨"Asia/Seoul"⟩ ⟨0, 0⟩ ⟨63879546600, 0⟩
      "2025-04-06T14:30:00Z" "UTC" 0 rfl rfl).1),
   ((c9_time_conversion ⟨"Asia/Seoul"⟩ ⟨0, 0⟩ ⟨63879546600, 0⟩
      "2025-04-06T14:30:00Z" "UTC" 0 rfl rfl).2.2.2.1)⟩

/-- C10: in the search handler the credential gate precedes every other
check — an empty API key always yields the API-key configuration error
and, with the key present, an empty search-engine id always yields the
engine-id configuration error, whatever the invocation's arguments are
(an empty query included); consequently the empty-query error can only
be observed when both credentials are non-empty. -/
theorem c10_credential_gate (cfg : SearchConfig) (args : SearchArgs) :
    (cfg.apiKey = "" → searchPrepare cfg args = .error "API key is not configured") ∧
    (cfg.apiKey ≠ "" → cfg.searchEngineID = "" →
      searchPrepare cfg args = .error "Search Engine ID is not configured") ∧
    (searchPrepare cfg args = .error "Search query cannot be empty" →
      cfg.apiKey ≠ "" ∧ cfg.searchEngineID ≠ "") := by
  refine ⟨?_, ?_, ?_⟩
  · intro h
    simp only [searchPrepare]
    rw [if_pos h]
  · intro h1 h2
    simp only [searchPrepare]
    rw [if_neg h1, if_pos h2]
  · intro h
    refine ⟨fun hk => ?_, fun he => ?_⟩
    · rw [show searchPrepare cfg args = .error "API key is not configured" from by
        simp only [searchPrepare]; rw [if_pos hk]] at h
      injection h with h
      exact absurd h (by decide)
    · by_cases hk : cfg.apiKey = ""
      · rw [show searchPrepare cfg args = .error "API key is not configured" from by
          simp only [searchPrepare]; rw [if_pos hk]] at h
        injection h with h
        exact absurd h (by decide)
      · rw [show searchPrepare cfg args = .error "Search Engine ID is not configured" from by
          simp only [searchPrepare]; rw [if_neg hk, if_pos he]] at h
        injection h with h
        exact absurd h (by decide)

/-- C10, witness: with an empty query, an empty API key still yields the
API-key error, and a present key with an empty engine id yields the
engine-id error — the empty-query message never surfaces on an
unconfigured server. -/
theorem c10_credential_gate_witness :
    searchPrepare ⟨"", "cx"⟩ ⟨some "", none, none, none, none, none⟩
      = .error "API key is not configured" ∧
    searchPrepare ⟨"k", ""⟩ ⟨some "", none, none, none, none, none⟩
      = .error "Search Engine ID is not configured" :=
  ⟨(c10_credential_gate ⟨"", "cx"⟩ ⟨some "", none, none, none, none, none⟩).1 rfl,
   (c10_credential_gate ⟨"k", ""⟩ ⟨some "", none, none, none, none, none⟩).2.1
     (by decide) rfl⟩

end Mcphost
